import Mathlib

/-!
Verification of the multi-tenant OAuth2 authenticator service.

Shallow embedding of `service/controllers.py` and `service/oauth2ext.py`:
request handlers become pure Lean functions over explicit inputs (the
database tables as lists, the flask `g`/`session`/form/query values as
`Option String` arguments) and return `Except Err` results.  Python
truthiness of strings is modelled by `truthy`; a raised exception becomes
an `Except.error` carrying the exception class and message of the source.
-/

set_option maxRecDepth 2000

/-- The exception classes raised by the source code.  `ResourceError`,
`ServiceConfigError` and `PermissionsError` come from `common.errors`;
`InvalidPasswordError` from `service.errors`; `KeyError` models a Python
`session[...]` lookup on a missing key; `InvalidGrantError` is the failure
of the Authorization Code Store (`service/models.py`, not under `src/`),
named as in the spec. -/
inductive Err where
  | ResourceError (msg : String)
  | ServiceConfigError (msg : String)
  | PermissionsError (msg : String)
  | InvalidPasswordError
  | InvalidGrantError (msg : String)
  | KeyError (key : String)
deriving Repr, DecidableEq

/-- Python truthiness of an optional string: `None` and the empty string
are falsy, any other string is truthy. -/
def truthy : Option String → Bool
  | none => false
  | some s => s != ""

/-- Python `str(...)` of an optional string as used in f-strings:
`None` renders as `"None"`. -/
def pyStr : Option String → String
  | none => "None"
  | some s => s

/-- A registered OAuth client record (`Client` model). -/
structure Client where
  tenant_id : String
  client_id : String
  client_key : String
  callback_url : String
  display_name : String
  username : String
deriving Repr, DecidableEq

/-- An authorization code record (`AuthorizationCode` model,
`service/models.py`; field list per the spec data model). -/
structure AuthorizationCodeRec where
  tenant_id : String
  client_id : String
  client_key : String
  redirect_url : String
  code : String
  expiry_time : Nat
  consumed : Bool
deriving Repr, DecidableEq

/-- `Client.query.filter_by(tenant_id=..., client_id=...).first()` -/
def findClientByTenantAndId (clients : List Client) (tid cid : String) : Option Client :=
  clients.find? (fun c => c.tenant_id == tid && c.client_id == cid)

/-- `Client.query.filter_by(tenant_id=..., client_id=..., client_key=...).first()` -/
def findClientByCreds (clients : List Client) (tid cid ckey : String) : Option Client :=
  clients.find? (fun c => c.tenant_id == tid && c.client_id == cid && c.client_key == ckey)

/-- `Client.query.filter_by(client_id=...).first()` — the lookup in
`AuthorizeResource.post` (controllers.py:251), which filters by
`client_id` alone, with no tenant scoping. -/
def findClientById (clients : List Client) (cid : String) : Option Client :=
  clients.find? (fun c => c.client_id == cid)

/-- Tenant resolution shared by `check_client`, `AuthorizeResource.post`
and the login/logout handlers: take `g.request_tenant_id`; when falsy,
read `session['tenant_id']` (a `KeyError` when the key is absent). -/
def resolveTenant (request_tenant_id session_tenant_id : Option String) :
    Except Err (Option String) :=
  if truthy request_tenant_id then .ok request_tenant_id
  else
    match session_tenant_id with
    | none => .error (.KeyError "tenant_id")
    | some s => .ok (some s)

/-- `check_client` (controllers.py:179-209): validates the client query
parameters of an authorize/login request against the registered client
and returns `(client_id, redirect_uri, state, client)`. -/
def check_client (clients : List Client)
    (request_tenant_id session_tenant_id : Option String)
    (client_id redirect_uri response_type state : Option String) :
    Except Err (String × String × Option String × Client) :=
  match resolveTenant request_tenant_id session_tenant_id with
  | .error e => .error e
  | .ok tid_opt =>
    if truthy tid_opt = false then .error (.ResourceError "tenant_id missing.")
    else if truthy client_id = false then
      .error (.ResourceError "Required query parameter client_id missing.")
    else if truthy redirect_uri = false then
      .error (.ResourceError "Required query parameter redirect_uri missing.")
    else if response_type != some "code" then
      .error (.ResourceError "Required query parameter response_type missing or not supported.")
    else
      match findClientByTenantAndId clients (pyStr tid_opt) (pyStr client_id) with
      | none => .error (.ResourceError "Invalid client.")
      | some client =>
        if client.callback_url != pyStr redirect_uri then
          .error (.ResourceError
            "redirect_uri query parameter does not match the registered callback_url for the client.")
        else .ok (pyStr client_id, pyStr redirect_uri, state, client)

/-- `(tenant_id, code)` lookup predicate of the Authorization Code Store. -/
def codeKeyMatch (tid code : String) (r : AuthorizationCodeRec) : Bool :=
  r.tenant_id == tid && r.code == code

/-- Modelled from the spec: `issue` of the Authorization Code Store lives in
`service/models.py`, which is not under `src/`.  Per the spec it persists a
fresh unconsumed record bound to
`(tenant_id, client_id, client_key, redirect_url)` with the generated code
and computed expiry. -/
def issue (store : List AuthorizationCodeRec)
    (tenant_id client_id client_key redirect_url code : String) (expiry : Nat) :
    AuthorizationCodeRec × List AuthorizationCodeRec :=
  let r : AuthorizationCodeRec :=
    ⟨tenant_id, client_id, client_key, redirect_url, code, expiry, false⟩
  (r, store ++ [r])

/-- Modelled from the spec: `AuthorizationCode.validate_code`
(`validate_and_consume`) lives in `service/models.py`, which is not under
`src/`.  Per the spec it (a) looks up by `(tenant_id, code)`, (b) verifies
`client_id`/`client_key` match, (c) verifies not expired, (d) verifies not
already consumed, and (e) atomically marks the record consumed, failing
with `InvalidGrantError` otherwise.  Consumption is the conditional update
keyed on `(tenant_id, code)`, performed in the same step as validation. -/
def validate_code (store : List AuthorizationCodeRec) (now : Nat)
    (tenant_id code client_id client_key : String) :
    Except Err (AuthorizationCodeRec × List AuthorizationCodeRec) :=
  match store.find? (codeKeyMatch tenant_id code) with
  | none => .error (.InvalidGrantError "Invalid authorization code.")
  | some r =>
    if r.client_id != client_id || r.client_key != client_key then
      .error (.InvalidGrantError "Invalid authorization code.")
    else if r.expiry_time ≤ now then
      .error (.InvalidGrantError "Authorization code has expired.")
    else if r.consumed then
      .error (.InvalidGrantError "Authorization code has already been used.")
    else
      let upd := fun (x : AuthorizationCodeRec) =>
        if codeKeyMatch tenant_id code x then { x with consumed := true } else x
      .ok ({ r with consumed := true }, store.map upd)

theorem find?_append_none {α : Type} (p : α → Bool) (l1 l2 : List α)
    (h : l1.find? p = none) : (l1 ++ l2).find? p = l2.find? p := by
  induction l1 with
  | nil => simp
  | cons a t ih =>
    rw [List.find?_cons] at h
    cases hpa : p a with
    | true => rw [hpa] at h; exact absurd h (by simp)
    | false =>
      rw [hpa] at h
      rw [List.cons_append, List.find?_cons, hpa]
      exact ih h

theorem map_id_of_fixed {α : Type} (f : α → α) (l : List α)
    (h : ∀ x ∈ l, f x = x) : l.map f = l := by
  induction l with
  | nil => rfl
  | cons a t ih =>
    simp only [List.map_cons, h a (by simp), ih (fun x hx => h x (by simp [hx]))]

/-- Claim C2: an authorization code is accepted at most once.  For a
freshly issued code (its `(tenant_id, code)` key not yet in the store, and
not yet expired), the first `validate_code` call with matching `tenant_id`,
`client_id` and `client_key` succeeds and returns the record marked
consumed; every subsequent call with the same code on the resulting store
— at any later time and with any client credentials — fails with
`InvalidGrantError`.  Validation and consumption are the same single step
of `validate_code`. -/
theorem validate_code_consume_once
    (store : List AuthorizationCodeRec) (tid cid ckey ru code : String)
    (exp now : Nat)
    (hfresh : store.find? (codeKeyMatch tid code) = none)
    (hexp : now < exp) :
    ∃ r2 store2,
      validate_code (issue store tid cid ckey ru code exp).2 now tid code cid ckey
          = .ok (r2, store2)
      ∧ r2.consumed = true
      ∧ ∀ now2 cid2 ckey2, ∃ m,
          validate_code store2 now2 tid code cid2 ckey2
            = .error (.InvalidGrantError m) := by
  have hr : codeKeyMatch tid code
      (⟨tid, cid, ckey, ru, code, exp, false⟩ : AuthorizationCodeRec) = true := by
    simp [codeKeyMatch]
  have hr1 : codeKeyMatch tid code
      (⟨tid, cid, ckey, ru, code, exp, true⟩ : AuthorizationCodeRec) = true := by
    simp [codeKeyMatch]
  have hfind1 :
      ((store ++ [(⟨tid, cid, ckey, ru, code, exp, false⟩ : AuthorizationCodeRec)]).find?
        (codeKeyMatch tid code))
        = some (⟨tid, cid, ckey, ru, code, exp, false⟩ : AuthorizationCodeRec) := by
    rw [find?_append_none _ _ _ hfresh, List.find?_cons, hr]
  have hstorefix : ∀ x ∈ store,
      (if codeKeyMatch tid code x then { x with consumed := true } else x) = x := by
    intro x hx
    have hpx : codeKeyMatch tid code x = false := by
      cases hpx : codeKeyMatch tid code x with
      | false => rfl
      | true => exact absurd (List.find?_eq_none.mp hfresh x hx) (by simp [hpx])
    simp [hpx]
  refine ⟨(⟨tid, cid, ckey, ru, code, exp, true⟩ : AuthorizationCodeRec),
          store ++ [(⟨tid, cid, ckey, ru, code, exp, true⟩ : AuthorizationCodeRec)], ?_, rfl, ?_⟩
  · show validate_code
        (store ++ [(⟨tid, cid, ckey, ru, code, exp, false⟩ : AuthorizationCodeRec)])
        now tid code cid ckey = _
    rw [validate_code, hfind1]
    simp [Nat.not_le.mpr hexp, hr, map_id_of_fixed _ store hstorefix]
  · intro now2 cid2 ckey2
    have hfind2 :
        ((store ++ [(⟨tid, cid, ckey, ru, code, exp, true⟩ : AuthorizationCodeRec)]).find?
          (codeKeyMatch tid code))
          = some (⟨tid, cid, ckey, ru, code, exp, true⟩ : AuthorizationCodeRec) := by
      rw [find?_append_none _ _ _ hfresh, List.find?_cons, hr1]
    rw [validate_code, hfind2]
    by_cases h1 : cid = cid2
    · by_cases h2 : ckey = ckey2
      · by_cases he : exp ≤ now2
        · exact ⟨"Authorization code has expired.", by simp [h1, h2, he]⟩
        · exact ⟨"Authorization code has already been used.", by simp [h1, h2, he]⟩
      · exact ⟨"Invalid authorization code.", by simp [h1, h2]⟩
    · exact ⟨"Invalid authorization code.", by simp [h1]⟩

/-- Witness for C2 at a concrete fresh code. -/
theorem validate_code_consume_once_witness :
    ∃ r2 store2,
      validate_code (issue [] "t1" "c1" "k1" "https://app/cb" "X" 100).2 5 "t1" "X" "c1" "k1"
          = .ok (r2, store2)
      ∧ r2.consumed = true
      ∧ ∀ now2 cid2 ckey2, ∃ m,
          validate_code store2 now2 "t1" "X" cid2 ckey2
            = .error (.InvalidGrantError m) :=
  validate_code_consume_once [] "t1" "c1" "k1" "https://app/cb" "X" 100 5
    (by rfl) (by decide)

/-- Claim C1: when a `Client` is registered for `(tenant_id, client_id)` and
the supplied `redirect_uri` equals that client's `callback_url` exactly
(with `response_type = "code"`), `check_client` succeeds and returns
`(client_id, redirect_uri, state, client)`; when the supplied
`redirect_uri` differs in any way from `client.callback_url`, `check_client`
fails with the validation error (`errors.ResourceError`), whatever the
`response_type` — equality is exact string equality, with no prefix or
partial matching. -/
theorem check_client_exact_redirect_match
    (clients : List Client) (tid cid ru : String) (state sess : Option String)
    (client : Client)
    (htid : tid ≠ "") (hcid : cid ≠ "") (hru : ru ≠ "")
    (hfind : findClientByTenantAndId clients tid cid = some client) :
    (ru = client.callback_url →
      check_client clients (some tid) sess (some cid) (some ru) (some "code") state
        = .ok (cid, ru, state, client))
    ∧ (ru ≠ client.callback_url → ∀ response_type, ∃ m,
      check_client clients (some tid) sess (some cid) (some ru) response_type state
        = .error (.ResourceError m)) := by
  constructor
  · intro heq
    subst heq
    simp [check_client, resolveTenant, truthy, pyStr, htid, hcid, hru, hfind]
  · intro hne response_type
    by_cases hrt : response_type = some "code"
    · refine ⟨"redirect_uri query parameter does not match the registered callback_url for the client.", ?_⟩
      simp [check_client, resolveTenant, truthy, pyStr, htid, hcid, hru, hfind, hrt]
      intro h
      exact absurd h.symm hne
    · refine ⟨"Required query parameter response_type missing or not supported.", ?_⟩
      simp [check_client, resolveTenant, truthy, pyStr, htid, hcid, hru, hfind, hrt]

/-- Witness for C1 at a concrete database and request. -/
theorem check_client_exact_redirect_match_witness :
    (("https://app/cb" : String) = ("https://app/cb" : String) →
      check_client [⟨"t1", "c1", "k1", "https://app/cb", "App", "alice"⟩]
          (some "t1") none (some "c1") (some "https://app/cb") (some "code") (some "st")
        = .ok ("c1", "https://app/cb", some "st",
               ⟨"t1", "c1", "k1", "https://app/cb", "App", "alice"⟩))
    ∧ (("https://app/cb" : String) ≠ ("https://app/cb" : String) → ∀ response_type, ∃ m,
      check_client [⟨"t1", "c1", "k1", "https://app/cb", "App", "alice"⟩]
          (some "t1") none (some "c1") (some "https://app/cb") response_type (some "st")
        = .error (.ResourceError m)) :=
  check_client_exact_redirect_match
    [⟨"t1", "c1", "k1", "https://app/cb", "App", "alice"⟩]
    "t1" "c1" "https://app/cb" (some "st") none
    ⟨"t1", "c1", "k1", "https://app/cb", "App", "alice"⟩
    (by decide) (by decide) (by decide) (by decide)

/-- The payload fields derived from the validated POST body of the tokens
endpoint (`Token.get_derived_values`). -/
structure TokenReqData where
  grant_type : Option String
  username : Option String
  password : Option String
  redirect_uri : Option String
  code : Option String
deriving Repr, DecidableEq

/-- The JSON body POSTed to the external `/v3/tokens` service
(controllers.py:132-136). -/
structure TokensBridgeContent where
  token_tenant_id : String
  account_type : String
  token_username : String
deriving Repr, DecidableEq

/-- The observable outcome of one `TokensResource.post` request: the
response (the bridge payload on success, the raised error otherwise),
whether the directory (`check_username_password`), the Authorization Code
Store (`AuthorizationCode.validate_code`) and the Token Issuance Bridge
(POST to `/v3/tokens`) were invoked, and the resulting code store. -/
structure TokensOutcome where
  resp : Except Err TokensBridgeContent
  ldapCalled : Bool
  validateCalled : Bool
  bridgeCalled : Bool
  codes : List AuthorizationCodeRec
deriving Repr

/-- `TokensResource.post` (controllers.py:74-140).  `ldapOk` is the
directory oracle: `check_username_password` (`service/ldap.py`, not under
`src/`) is modelled from the spec as raising `InvalidPasswordError`
(`InvalidCredentialsError` in spec terms) exactly when the directory
rejects the pair, as witnessed by `LoginResource.post` catching that
exception.  `auth` is the basic-auth header `(client_id, client_key)`. -/
def tokens_post (clients : List Client) (codes : List AuthorizationCodeRec)
    (ldapOk : String → String → String → Bool) (now : Nat)
    (tenant_id : String) (auth : Option (String × String))
    (data : TokenReqData) : TokensOutcome :=
  if truthy data.grant_type = false then
    ⟨.error (.ResourceError "Missing the required grant_type parameter."),
     false, false, false, codes⟩
  else
    match auth with
    | none =>
      ⟨.error (.ResourceError
        "Invalid headers. Basic authentication with client id and key required but missing."),
       false, false, false, codes⟩
    | some (client_id, client_key) =>
      match findClientByCreds clients tenant_id client_id client_key with
      | none =>
        ⟨.error (.ResourceError
          ("Invalid client credentials: " ++ client_id ++ ", " ++ client_key ++ ".")),
         false, false, false, codes⟩
      | some client =>
        if data.grant_type == some "password" then
          if truthy data.username = false || truthy data.password = false then
            ⟨.error (.ResourceError
              "Missing requried payload data; username and password are required for the password grant type."),
             false, false, false, codes⟩
          else if ldapOk tenant_id (pyStr data.username) (pyStr data.password) then
            ⟨.ok ⟨tenant_id, "service", pyStr data.username⟩, true, false, true, codes⟩
          else
            ⟨.error .InvalidPasswordError, true, false, false, codes⟩
        else if data.grant_type == some "authorization_code" then
          if truthy data.redirect_uri = false then
            ⟨.error (.ResourceError "Required redirect_uri parameter missing."),
             false, false, false, codes⟩
          else if data.redirect_uri != some client.callback_url then
            ⟨.error (.ResourceError
              "Invalid redirect_uri parameter: does not match callback URL registered with client."),
             false, false, false, codes⟩
          else if truthy data.code = false then
            ⟨.error (.ResourceError "Required authorization_code parameter missing."),
             false, false, false, codes⟩
          else
            match validate_code codes now tenant_id (pyStr data.code) client_id client_key with
            | .error e => ⟨.error e, false, true, false, codes⟩
            | .ok (_, codes2) =>
              ⟨.ok ⟨tenant_id, "service", pyStr data.username⟩, false, true, true, codes2⟩
        else
          ⟨.error (.ResourceError "Invalid grant_type"), false, false, false, codes⟩

/-- Claim C3: for every tokens POST (with a grant_type present and an
authorization header supplied), the client credential check against the
stored clients of the request tenant runs before any grant-type-specific
logic; when no client matches `(tenant_id, client_id, client_key)`, the
request fails with the invalid-client error and no grant processing
happens: the directory, the code store and the token bridge are all never
invoked and the code store is unchanged. -/
theorem tokens_post_client_check_first
    (clients : List Client) (codes : List AuthorizationCodeRec)
    (ldapOk : String → String → String → Bool) (now : Nat)
    (tenant_id client_id client_key : String) (data : TokenReqData)
    (hgt : truthy data.grant_type = true)
    (hnone : findClientByCreds clients tenant_id client_id client_key = none) :
    tokens_post clients codes ldapOk now tenant_id (some (client_id, client_key)) data
      = ⟨.error (.ResourceError
          ("Invalid client credentials: " ++ client_id ++ ", " ++ client_key ++ ".")),
         false, false, false, codes⟩ := by
  rw [tokens_post, hgt, hnone]
  simp

/-- Witness for C3: an empty client table rejects any credentials. -/
theorem tokens_post_client_check_first_witness :
    tokens_post [] [] (fun _ _ _ => true) 0 "t1" (some ("c1", "k1"))
        ⟨some "password", some "alice", some "pw", none, none⟩
      = ⟨.error (.ResourceError "Invalid client credentials: c1, k1."),
         false, false, false, []⟩ :=
  tokens_post_client_check_first [] [] (fun _ _ _ => true) 0 "t1" "c1" "k1"
    ⟨some "password", some "alice", some "pw", none, none⟩ (by decide) (by rfl)

/-- Claim C4: for a tokens request with `grant_type=authorization_code`
whose supplied `redirect_uri` is not exactly the authenticated client's
registered `callback_url`, the request fails before any authorization-code
validation: `validate_code` is never invoked and the code store is
unchanged (no code is consumed). -/
theorem tokens_post_redirect_mismatch_before_validation
    (clients : List Client) (codes : List AuthorizationCodeRec)
    (ldapOk : String → String → String → Bool) (now : Nat)
    (tenant_id client_id client_key ru : String) (client : Client)
    (data : TokenReqData)
    (hfind : findClientByCreds clients tenant_id client_id client_key = some client)
    (hgt : data.grant_type = some "authorization_code")
    (hru : data.redirect_uri = some ru)
    (hne : ru ≠ client.callback_url) :
    ∃ m, tokens_post clients codes ldapOk now tenant_id
        (some (client_id, client_key)) data
      = ⟨.error (.ResourceError m), false, false, false, codes⟩ := by
  by_cases hempty : ru = ""
  · refine ⟨"Required redirect_uri parameter missing.", ?_⟩
    rw [tokens_post, hfind]
    simp [hgt, truthy, hru, hempty]
  · refine ⟨"Invalid redirect_uri parameter: does not match callback URL registered with client.", ?_⟩
    rw [tokens_post, hfind]
    simp [hgt, truthy, hru, hempty, hne]

/-- Witness for C4: a store holding a valid code is untouched when the
redirect_uri differs from the registered callback_url. -/
theorem tokens_post_redirect_mismatch_before_validation_witness :
    ∃ m, tokens_post [⟨"t1", "c1", "k1", "https://app/cb", "App", "alice"⟩]
        [⟨"t1", "c1", "k1", "https://app/cb", "X", 100, false⟩]
        (fun _ _ _ => true) 0 "t1" (some ("c1", "k1"))
        ⟨some "authorization_code", none, none, some "https://evil/cb", some "X"⟩
      = ⟨.error (.ResourceError m), false, false, false,
         [⟨"t1", "c1", "k1", "https://app/cb", "X", 100, false⟩]⟩ :=
  tokens_post_redirect_mismatch_before_validation
    [⟨"t1", "c1", "k1", "https://app/cb", "App", "alice"⟩]
    [⟨"t1", "c1", "k1", "https://app/cb", "X", 100, false⟩]
    (fun _ _ _ => true) 0 "t1" "c1" "k1" "https://evil/cb"
    ⟨"t1", "c1", "k1", "https://app/cb", "App", "alice"⟩
    ⟨some "authorization_code", none, none, some "https://evil/cb", some "X"⟩
    (by rfl) (by rfl) (by rfl) (by decide)

/-- Claim C5: for a tokens request with `grant_type=password` whose
username/password pair the directory rejects, the request fails with the
invalid-credentials error (`InvalidPasswordError` in the source) and the
Token Issuance Bridge (the POST to the external `/v3/tokens` service) is
never invoked. -/
theorem tokens_post_password_rejected_no_bridge
    (clients : List Client) (codes : List AuthorizationCodeRec)
    (ldapOk : String → String → String → Bool) (now : Nat)
    (tenant_id client_id client_key u p : String) (client : Client)
    (data : TokenReqData)
    (hfind : findClientByCreds clients tenant_id client_id client_key = some client)
    (hgt : data.grant_type = some "password")
    (hu : data.username = some u) (hune : u ≠ "")
    (hp : data.password = some p) (hpne : p ≠ "")
    (hldap : ldapOk tenant_id u p = false) :
    tokens_post clients codes ldapOk now tenant_id
        (some (client_id, client_key)) data
      = ⟨.error .InvalidPasswordError, true, false, false, codes⟩ := by
  rw [tokens_post, hfind]
  simp [hgt, truthy, pyStr, hu, hp, hune, hpne, hldap]

/-- Witness for C5 with a directory that rejects every pair. -/
theorem tokens_post_password_rejected_no_bridge_witness :
    tokens_post [⟨"t1", "c1", "k1", "https://app/cb", "App", "alice"⟩] []
        (fun _ _ _ => false) 0 "t1" (some ("c1", "k1"))
        ⟨some "password", some "alice", some "badpw", none, none⟩
      = ⟨.error .InvalidPasswordError, true, false, false, []⟩ :=
  tokens_post_password_rejected_no_bridge
    [⟨"t1", "c1", "k1", "https://app/cb", "App", "alice"⟩] []
    (fun _ _ _ => false) 0 "t1" "c1" "k1" "alice" "badpw"
    ⟨"t1", "c1", "k1", "https://app/cb", "App", "alice"⟩
    ⟨some "password", some "alice", some "badpw", none, none⟩
    (by rfl) (by rfl) (by rfl) (by decide) (by rfl) (by decide) (by rfl)

/-- Modelled from the spec: the string form of an `AuthorizationCode`
object as interpolated into the redirect f-string
(controllers.py:262); the model class with its `str`/`repr` lives in
`service/models.py`, which is not under `src/`.  Per the spec the terminal
redirect carries the generated code string:
`{callback_url}?code={code}&state={state}`. -/
def strOfAuthorizationCode (r : AuthorizationCodeRec) : String :=
  r.code

/-- The two response shapes of `AuthorizeResource.post`: re-rendering the
consent page with an error, or the terminal redirect. -/
inductive AuthorizeResp where
  | consentPage (error : String)
  | redirectTo (url : String)
deriving Repr

/-- Outcome of one `AuthorizeResource.post` request: the response (or
raised error) and the resulting authorization-code store. -/
structure AuthorizeOutcome where
  resp : Except Err AuthorizeResp
  codes : List AuthorizationCodeRec
deriving Repr

/-- `AuthorizeResource.post` (controllers.py:231-264).  `gen_code` is the
value of `AuthorizationCode.generate_code()` and `expiry` of
`AuthorizationCode.compute_expiry()` for this request.  Note two facts
taken directly from the source: the client lookup at line 251 filters by
`client_id` only (no tenant scoping), and the constructed
`AuthorizationCode` is never added to the database session — the returned
`codes` store is the input store, unchanged. -/
def authorize_post (clients : List Client) (codes : List AuthorizationCodeRec)
    (request_tenant_id session_tenant_id : Option String)
    (form_client_display_name form_approve form_state form_client_id : Option String)
    (gen_code : String) (expiry : Nat) : AuthorizeOutcome :=
  match resolveTenant request_tenant_id session_tenant_id with
  | .error e => ⟨.error e, codes⟩
  | .ok tid_opt =>
    if truthy tid_opt = false then
      ⟨.error (.ResourceError "Tenant ID missing from session. Please logout and select a tenant."),
       codes⟩
    else if truthy form_approve = false then
      ⟨.ok (.consentPage ("To proceed with authorization application "
          ++ pyStr form_client_display_name ++ ", you must approve the request.")),
       codes⟩
    else if truthy form_client_id = false then
      ⟨.error (.ResourceError "client_id missing."), codes⟩
    else
      match findClientById clients (pyStr form_client_id) with
      | none => ⟨.error (.ResourceError "Invalid client."), codes⟩
      | some client =>
        let authz_code : AuthorizationCodeRec :=
          ⟨pyStr tid_opt, pyStr form_client_id, client.client_key,
           client.callback_url, gen_code, expiry, false⟩
        let url := client.callback_url ++ "?code=" ++ strOfAuthorizationCode authz_code
          ++ "&state=" ++ pyStr form_state
        ⟨.ok (.redirectTo url), codes⟩

/-- Claim C6, evaluated at the failing input: a consent POST for the
registered client `c1` of tenant `t1` with the approval field set and
state `xyz` produces the terminal redirect
`https://app/cb?code=X&state=xyz` (code string and state echoed verbatim),
but the resulting authorization-code store is still empty — no unconsumed
`AuthorizationCode` record was persisted, because the handler never adds
the constructed record to the database session
(controllers.py:255-264 has no `db.session.add`/`commit`). -/
theorem authorize_post_persists_nothing :
    authorize_post [⟨"t1", "c1", "k1", "https://app/cb", "App", "alice"⟩] []
        (some "t1") none (some "App") (some "true") (some "xyz") (some "c1") "X" 100
      = ⟨.ok (.redirectTo "https://app/cb?code=X&state=xyz"), []⟩ := by
  rfl

/-- Claim C7, evaluated at the failing input: the only client in the store
belongs to tenant `A`, yet a consent POST whose request tenant is `B`
succeeds and issues the terminal redirect to tenant A's client
callback — the lookup at controllers.py:251 filters by `client_id` alone,
so a client of tenant A is used to issue an authorization code by a
request of tenant B. -/
theorem authorize_post_cross_tenant_client :
    authorize_post [⟨"A", "c1", "k1", "https://a/cb", "AppA", "alice"⟩] []
        (some "B") none (some "AppA") (some "true") (some "s") (some "c1") "X" 100
      = ⟨.ok (.redirectTo "https://a/cb?code=X&state=s"), []⟩ := by
  rfl

/-- A string-valued JSON object, used for the parsed
`custom_idp_configuration` dictionary (a dict of per-provider dicts). -/
def dictGet {α : Type} (d : List (String × α)) (k : String) : Option α :=
  (d.find? (fun p => p.1 == k)).map (fun p => p.2)

/-- A tenant's custom configuration (`TenantConfig`), with
`custom_idp_configuration` already parsed from JSON into a dict of
per-provider dicts (oauth2ext.py:39 applies `json.loads` to the stored
string; malformed JSON is outside the claims considered here). -/
structure ExtTenantConfig where
  custom_idp_configuration : List (String × List (String × String))

/-- The state of one `OAuth2ProviderExtension` after construction
(oauth2ext.py:31-71). -/
structure OAuth2ProviderExtensionState where
  tenant_id : String
  ext_type : Option String
  is_local_development : Bool
  callback_url : String
  authorization_code : Option String
  access_token : Option String
  username : Option String
  client_id : Option String
  client_key : Option String
  identity_redirect_url : String
  oauth2_token_url : String
deriving Repr

/-- `OAuth2ProviderExtension.__init__` (oauth2ext.py:31-71).
`get_config` and `get_custom_oa2_extension_type` stand for the reads of
the tenant-config cache (`service/models.py`, not under `src/`; per the
spec these are read-only cache lookups), and `tenant_base_url` for the
tenant-registry cache read at line 45.  The second component of the
result is the list of outbound network calls performed: the constructor
makes none — every path is cache reads and local computation.  A missing
extension type fails with `errors.ResourceError` at line 44; an extension
type other than `github` (the only branch of the fixed provider registry,
lines 56-71) fails with `errors.ServiceConfigError`. -/
def oauth2_provider_ext_init
    (get_config : String → ExtTenantConfig)
    (get_custom_oa2_extension_type : String → Option String)
    (tenant_base_url : String → String)
    (tenant_id : String) (is_local_development : Bool) :
    Except Err OAuth2ProviderExtensionState × List String :=
  let tenant_config := get_config tenant_id
  let ext_type := get_custom_oa2_extension_type tenant_id
  let custom_idp_config_dict := tenant_config.custom_idp_configuration
  if truthy ext_type = false then
    (.error (.ResourceError
      ("Tenant " ++ tenant_id ++ " not configured for a custom OAuth2 extension.")), [])
  else
    let callback_url :=
      if is_local_development then "http://localhost:5000/v3/oauth2/extensions/oa2/callback"
      else tenant_base_url tenant_id ++ "/v3/oauth2/extensions/oa2/callback"
    if ext_type == some "github" then
      match dictGet custom_idp_config_dict "github" with
      | none =>
        (.error (.ResourceError "AttributeError: NoneType object has no attribute get"), [])
      | some gh =>
        (.ok ⟨tenant_id, ext_type, is_local_development, callback_url,
              none, none, none,
              dictGet gh "client_id", dictGet gh "client_secret",
              "https://github.com/login/oauth/authorize",
              "https://github.com/login/oauth/access_token"⟩, [])
    else
      (.error (.ServiceConfigError
        ("Error processing callback URL: extension type " ++ pyStr ext_type
          ++ " not supported.")), [])

/-- Claim C8: constructing the Provider Federation Adapter for a tenant
whose configuration lacks a non-empty extension type fails with the
configuration error and performs no outbound network call (the outbound
call list of the construction is empty); and constructing it for a tenant
whose extension type is not in the fixed registry of supported provider
types (only `github` is implemented) also fails with a configuration
error, likewise without any outbound call. -/
theorem oauth2_ext_init_config_errors
    (get_config : String → ExtTenantConfig)
    (get_custom_oa2_extension_type : String → Option String)
    (tenant_base_url : String → String)
    (tenant_id : String) (is_local_development : Bool) :
    (truthy (get_custom_oa2_extension_type tenant_id) = false →
      oauth2_provider_ext_init get_config get_custom_oa2_extension_type
          tenant_base_url tenant_id is_local_development
        = (.error (.ResourceError
            ("Tenant " ++ tenant_id ++ " not configured for a custom OAuth2 extension.")), []))
    ∧ (∀ ty, get_custom_oa2_extension_type tenant_id = some ty → ty ≠ "" → ty ≠ "github" →
      oauth2_provider_ext_init get_config get_custom_oa2_extension_type
          tenant_base_url tenant_id is_local_development
        = (.error (.ServiceConfigError
            ("Error processing callback URL: extension type " ++ ty
              ++ " not supported.")), [])) := by
  constructor
  · intro hfalsy
    rw [oauth2_provider_ext_init, hfalsy]
    simp
  · intro ty hty htyne htygh
    rw [oauth2_provider_ext_init, hty]
    simp [truthy, pyStr, htyne, htygh]

/-- Witness for C8: a tenant with no extension type, and a tenant with the
unsupported extension type `google`. -/
theorem oauth2_ext_init_config_errors_witness :
    (truthy ((fun _ => (none : Option String)) "t1") = false →
      oauth2_provider_ext_init (fun _ => ⟨[]⟩) (fun _ => none) (fun _ => "https://t1") "t1" false
        = (.error (.ResourceError "Tenant t1 not configured for a custom OAuth2 extension."), []))
    ∧ (∀ ty, (fun _ => (some "google" : Option String)) "t1" = some ty → ty ≠ "" → ty ≠ "github" →
      oauth2_provider_ext_init (fun _ => ⟨[]⟩) (fun _ => some "google")
          (fun _ => "https://t1") "t1" false
        = (.error (.ServiceConfigError
            ("Error processing callback URL: extension type " ++ ty ++ " not supported.")), [])) :=
  ⟨(oauth2_ext_init_config_errors (fun _ => ⟨[]⟩) (fun _ => none)
      (fun _ => "https://t1") "t1" false).1,
   (oauth2_ext_init_config_errors (fun _ => ⟨[]⟩) (fun _ => some "google")
      (fun _ => "https://t1") "t1" false).2⟩

/-- `OAuth2ProviderExtension.get_auth_code_from_callback`
(oauth2ext.py:73-93): `session_state` is `session.get('state')`,
`args_state` and `args_code` the `state` and `code` query parameters of
the provider callback.  Returns the authorization code stored on the
federation attempt. -/
def get_auth_code_from_callback
    (session_state args_state args_code : Option String) : Except Err String :=
  let proceed : Except Err String :=
    if truthy args_code = false then
      .error (.ServiceConfigError "Error processing provider callback -- code missing.")
    else .ok (pyStr args_code)
  if truthy args_state then
    if session_state != args_state then
      .error (.ServiceConfigError "Error processing provider callback -- state mismatch.")
    else proceed
  else proceed

/-- Counterexample to claim C9 as stated: the session-stored state was set
to `s1` at redirect time, the callback carries no `state` parameter — so
the callback's state does not equal the stored state — yet the handler
proceeds and stores the code instead of failing with the state-mismatch
error: the source only compares states when the callback itself carries a
truthy `state` (oauth2ext.py:82-88). -/
theorem get_auth_code_stripped_state_accepted :
    get_auth_code_from_callback (some "s1") none (some "abc") = .ok "abc" := by
  rfl

/-- Claim C9 as amended: if the callback carries a non-empty `state`
parameter, it must equal the session-stored state exactly or the handler
fails with the state-mismatch error; a callback carrying no (or an empty)
`state` skips state validation entirely, even when a state was stored at
redirect time; past the state check, a callback without a truthy `code`
parameter fails with the missing-code error, and otherwise the code is
returned and stored on the federation attempt. -/
theorem get_auth_code_from_callback_amended
    (session_state args_state args_code : Option String) :
    (truthy args_state = true → session_state ≠ args_state →
      get_auth_code_from_callback session_state args_state args_code
        = .error (.ServiceConfigError "Error processing provider callback -- state mismatch."))
    ∧ (truthy args_state = false ∨ session_state = args_state →
        (truthy args_code = false →
          get_auth_code_from_callback session_state args_state args_code
            = .error (.ServiceConfigError "Error processing provider callback -- code missing."))
        ∧ (∀ c, args_code = some c → c ≠ "" →
          get_auth_code_from_callback session_state args_state args_code = .ok c)) := by
  refine ⟨?_, ?_⟩
  · intro hst hne
    rw [get_auth_code_from_callback, hst]
    simp [hne]
  · intro hok
    constructor
    · intro hcode
      cases hok with
      | inl h =>
        rw [get_auth_code_from_callback, h]
        simp [hcode]
      | inr h =>
        rw [get_auth_code_from_callback]
        simp [h, hcode]
    · intro c hc hcne
      cases hok with
      | inl h =>
        rw [get_auth_code_from_callback, h]
        simp [hc, truthy, pyStr, hcne]
      | inr h =>
        rw [get_auth_code_from_callback]
        simp [h, hc, truthy, pyStr, hcne]

/-- Witness for the amended C9: a matching state passes and the code is
stored; a mismatching state fails. -/
theorem get_auth_code_from_callback_amended_witness :
    ((truthy (some "s1") = true → (some "s2" : Option String) ≠ some "s1" →
      get_auth_code_from_callback (some "s2") (some "s1") (some "abc")
        = .error (.ServiceConfigError "Error processing provider callback -- state mismatch."))
    ∧ (truthy (some "s1") = false ∨ (some "s2" : Option String) = some "s1" →
        (truthy (some "abc" : Option String) = false →
          get_auth_code_from_callback (some "s2") (some "s1") (some "abc")
            = .error (.ServiceConfigError "Error processing provider callback -- code missing."))
        ∧ (∀ c, (some "abc" : Option String) = some c → c ≠ "" →
          get_auth_code_from_callback (some "s2") (some "s1") (some "abc") = .ok c)))
    ∧ ((some "s1" : Option String) ≠ some "s1" ∨
        get_auth_code_from_callback (some "s1") (some "s1") (some "abc") = .ok "abc") :=
  ⟨get_auth_code_from_callback_amended (some "s2") (some "s1") (some "abc"),
   Or.inr (((get_auth_code_from_callback_amended (some "s1") (some "s1") (some "abc")).2
      (Or.inr rfl)).2 "abc" rfl (by decide))⟩

/-- `ClientResource.get` (controllers.py:49-55): fetch one client of the
requesting tenant; a client owned by a different username is not
returned. -/
def client_get (clients : List Client) (g_tenant_id g_username client_id : String) :
    Except Err Client :=
  match findClientByTenantAndId clients g_tenant_id client_id with
  | none => .error (.ResourceError ("No client found with id " ++ client_id ++ "."))
  | some client =>
    if client.username != g_username then
      .error (.PermissionsError "Not authorized for this client.")
    else .ok client

/-- Claim C10: for a GET of a single client that exists in the requesting
tenant, a requester whose username differs from the client's owning
username gets the permission-denied error (`errors.PermissionsError`) and
the client record is not returned — ownership is enforced on read, not
only on delete. -/
theorem client_get_ownership_enforced
    (clients : List Client) (g_tenant_id g_username client_id : String) (client : Client)
    (hfind : findClientByTenantAndId clients g_tenant_id client_id = some client)
    (hown : client.username ≠ g_username) :
    client_get clients g_tenant_id g_username client_id
      = .error (.PermissionsError "Not authorized for this client.") := by
  rw [client_get, hfind]
  simp [hown]

/-- Witness for C10: bob requests alice's client. -/
theorem client_get_ownership_enforced_witness :
    client_get [⟨"t1", "c1", "k1", "https://app/cb", "App", "alice"⟩] "t1" "bob" "c1"
      = .error (.PermissionsError "Not authorized for this client.") :=
  client_get_ownership_enforced
    [⟨"t1", "c1", "k1", "https://app/cb", "App", "alice"⟩] "t1" "bob" "c1"
    ⟨"t1", "c1", "k1", "https://app/cb", "App", "alice"⟩ (by rfl) (by decide)
